import Mathlib

/-!
Verification of the earthquake payout engine in
`src/earthquakes/tools.py`: the haversine distance function, the
per-event payout rule evaluation with yearly max aggregation, and the
burning-cost average.

Numeric columns of the dataframe (magnitude `mag`, distance proxy
`depth`, rule thresholds and payouts) are embedded as rationals, which
keeps every comparison and maximum the code performs exact and
decidable.  The trigonometric haversine computation is embedded over
the reals.
-/

namespace Tools

/-- `EARTH_RADIUS = 6378` (km), from `tools.py`. -/
def EARTH_RADIUS : ℝ := 6378

/-! ## Data model

A row of the `earthquake_data` dataframe, restricted to the columns
`compute_payouts` reads.  The `time` column after `pd.to_datetime(...,
errors="coerce")` is either a valid timestamp or `NaT`; we embed it as
an `Option Timestamp`, `none` standing for a missing or unparseable
timestamp (coerced to `NaT`). -/

/-- A parsed timestamp; `compute_payouts` only ever reads its calendar
year (`.dt.year`), so that is the one field we keep. -/
structure Timestamp where
  year : ℤ
deriving DecidableEq, Repr

/-- One row of the events dataframe: `time`, `mag` (magnitude) and
`depth` (distance-from-epicenter proxy), plus the raw coordinates
`latitude` and `longitude` also present in the fetched frame. -/
structure Event where
  time : Option Timestamp
  mag : ℚ
  depth : ℚ
  latitude : ℚ
  longitude : ℚ
deriving DecidableEq, Repr

/-- One payout rule dict: keys `radius`, `magnitude`, `payout`. -/
structure Rule where
  radius : ℚ
  magnitude : ℚ
  payout : ℚ
deriving DecidableEq, Repr

/-- Python's `max(l)` for a possibly-empty list: `some` of the maximum
when the list is nonempty, `none` when it is empty.  Mirrors both the
`max(payouts) if payouts else 0.0` idiom and the pandas
`groupby(...).max()` aggregation. -/
def listMax? (l : List ℚ) : Option ℚ :=
  l.foldr (fun x acc => match acc with
    | none => some x
    | some y => some (max x y)) none

/-- The row-wise payout of `compute_payouts.compute_payout`:
`max(rule["payout"] for qualifying rules)`, `0.0` when no rule
qualifies. -/
def compute_payout (payout_rules : List Rule) (row : Event) : ℚ :=
  let payouts := (payout_rules.filter fun rule =>
      decide (row.depth ≤ rule.radius) && decide (rule.magnitude ≤ row.mag)).map Rule.payout
  match listMax? payouts with
  | some m => m
  | none => 0

/-- `dropna(subset=["time"])` after the `errors="coerce"` conversion:
rows whose timestamp was missing or unparseable (`NaT`, here `none`)
are removed. -/
def dropna_time (data : List Event) : List Event :=
  data.filter fun e => e.time.isSome

/-- The `year` column: `time.dt.year` of a retained row. -/
def event_year (e : Event) : Option ℤ :=
  e.time.map Timestamp.year

/-- `compute_payouts` of `tools.py` as a finite mapping
year ↦ max payout: `none` exactly when the year key is absent from the
returned dict (no retained event fell in that year), `some v` when the
dict maps the year to `v = groupby("year")["payout"].max()`. -/
def compute_payouts (earthquake_data : List Event) (payout_rules : List Rule) :
    ℤ → Option ℚ :=
  fun year =>
    listMax? (((dropna_time earthquake_data).filter fun e =>
      decide (event_year e = some year)).map (compute_payout payout_rules))

/-- `compute_burning_cost` of `tools.py`.  Raising `ValueError` is
embedded as `Except.error` carrying the message; the year range
`range(start_year, end_year + 1)` is the inclusive integer range. -/
def compute_burning_cost (payouts : ℤ → Option ℚ) (start_year end_year : ℤ) :
    Except String ℚ :=
  if start_year > end_year then
    .error "start_year must be less than or equal to end_year"
  else
    let total_years : ℤ := end_year - start_year + 1
    if total_years = 0 then .ok 0
    else
      let total_pct : ℚ :=
        (((List.range total_years.toNat).map fun i : ℕ => start_year + (i : ℤ)).map
          fun year => (payouts year).getD 0).sum
      .ok (total_pct / (total_years : ℚ))

/-- A rule qualifies for a row exactly when the row's distance proxy is
within the rule's radius AND the row's magnitude reaches the rule's
threshold — the conjunction tested by `compute_payout`'s list
comprehension. -/
def Qualifies (row : Event) (rule : Rule) : Prop :=
  row.depth ≤ rule.radius ∧ rule.magnitude ≤ row.mag

instance (row : Event) (rule : Rule) : Decidable (Qualifies row rule) :=
  inferInstanceAs (Decidable (_ ∧ _))

/-! ## Facts about `listMax?` -/

theorem listMax?_cons (x : ℚ) (l : List ℚ) :
    listMax? (x :: l) = match listMax? l with
      | none => some x
      | some y => some (max x y) := rfl

theorem listMax?_eq_none_iff (l : List ℚ) : listMax? l = none ↔ l = [] := by
  cases l with
  | nil => simp [listMax?]
  | cons x l => rw [listMax?_cons]; cases listMax? l <;> simp

theorem listMax?_isGreatest (l : List ℚ) (v : ℚ) (h : listMax? l = some v) :
    v ∈ l ∧ ∀ x ∈ l, x ≤ v := by
  induction l generalizing v with
  | nil => simp [listMax?] at h
  | cons a l ih =>
    rw [listMax?_cons] at h
    cases hl : listMax? l with
    | none =>
      rw [hl] at h
      obtain rfl : a = v := by simpa using h
      have : l = [] := (listMax?_eq_none_iff l).mp hl
      subst this
      exact ⟨by simp, by simp⟩
    | some y =>
      rw [hl] at h
      obtain rfl : max a y = v := by simpa using h
      obtain ⟨hy, hb⟩ := ih y hl
      refine ⟨?_, ?_⟩
      · rcases max_cases a y with ⟨he, _⟩ | ⟨he, _⟩ <;> rw [he]
        · exact List.mem_cons_self a l
        · exact List.mem_cons_of_mem a hy
      · intro x hx
        rcases List.mem_cons.mp hx with rfl | hx
        · exact le_max_left _ _
        · exact le_trans (hb x hx) (le_max_right _ _)

theorem listMax?_map_mono {α : Type} (l : List α) (f g : α → ℚ)
    (h : ∀ x ∈ l, f x ≤ g x) (v w : ℚ)
    (hv : listMax? (l.map f) = some v) (hw : listMax? (l.map g) = some w) : v ≤ w := by
  obtain ⟨hvm, _⟩ := listMax?_isGreatest _ _ hv
  obtain ⟨_, hwb⟩ := listMax?_isGreatest _ _ hw
  obtain ⟨x, hx, rfl⟩ := List.mem_map.mp hvm
  exact le_trans (h x hx) (hwb _ (List.mem_map.mpr ⟨x, hx, rfl⟩))

/-- Membership in the list comprehension of `compute_payout`: the
collected payouts are exactly the payouts of qualifying rules. -/
theorem mem_qualifying_payouts (payout_rules : List Rule) (row : Event) (p : ℚ) :
    (p ∈ (payout_rules.filter fun rule =>
        decide (row.depth ≤ rule.radius) && decide (rule.magnitude ≤ row.mag)).map
          Rule.payout)
    ↔ ∃ r ∈ payout_rules, Qualifies row r ∧ r.payout = p := by
  simp [List.mem_filter, Qualifies, and_assoc]

/-- Unfolding equation for `compute_payout`. -/
theorem compute_payout_eq (payout_rules : List Rule) (row : Event) :
    compute_payout payout_rules row =
      match listMax? ((payout_rules.filter fun rule =>
          decide (row.depth ≤ rule.radius) && decide (rule.magnitude ≤ row.mag)).map
            Rule.payout) with
      | some m => m
      | none => 0 := rfl

/-- Membership in the year-filtered retained rows of `compute_payouts`:
a row survives `dropna` and groups under `year` exactly when it is an
input row whose timestamp parsed and has that calendar year. -/
theorem mem_year_filter (data : List Event) (year : ℤ) (e : Event) :
    (e ∈ (dropna_time data).filter fun e => decide (event_year e = some year)) ↔
      e ∈ data ∧ event_year e = some year := by
  simp only [dropna_time, List.mem_filter, decide_eq_true_eq]
  constructor
  · rintro ⟨⟨he, _⟩, hy⟩
    exact ⟨he, hy⟩
  · rintro ⟨he, hy⟩
    refine ⟨⟨he, ?_⟩, hy⟩
    simp only [event_year, Option.map_eq_some'] at hy
    obtain ⟨t, ht, _⟩ := hy
    simp [ht]

/-- C1: for every rule set and every retained event row, the payout the
engine assigns to that row is the maximum `rule.payout` over the rules
whose radius covers the row's distance AND whose magnitude threshold
the row's magnitude reaches, and it is exactly `0.0` when no rule
satisfies both conditions (in particular for the empty rule set). -/
theorem compute_payout_is_max_over_qualifying (payout_rules : List Rule) (row : Event) :
    ((∀ r ∈ payout_rules, ¬ Qualifies row r) → compute_payout payout_rules row = 0)
  ∧ (∀ r ∈ payout_rules, Qualifies row r → r.payout ≤ compute_payout payout_rules row)
  ∧ ((∃ r ∈ payout_rules, Qualifies row r) →
      ∃ r ∈ payout_rules, Qualifies row r ∧ compute_payout payout_rules row = r.payout) := by
  rw [compute_payout_eq]
  cases hP : listMax? ((payout_rules.filter fun rule =>
      decide (row.depth ≤ rule.radius) && decide (rule.magnitude ≤ row.mag)).map
        Rule.payout) with
  | none =>
    have hPe := (listMax?_eq_none_iff _).mp hP
    refine ⟨fun _ => rfl, ?_, ?_⟩
    · intro r hr hq
      have : r.payout ∈ ([] : List ℚ) := by
        rw [← hPe]
        exact (mem_qualifying_payouts payout_rules row r.payout).mpr ⟨r, hr, hq, rfl⟩
      simp at this
    · rintro ⟨r, hr, hq⟩
      have : r.payout ∈ ([] : List ℚ) := by
        rw [← hPe]
        exact (mem_qualifying_payouts payout_rules row r.payout).mpr ⟨r, hr, hq, rfl⟩
      simp at this
  | some v =>
    obtain ⟨hv, hb⟩ := listMax?_isGreatest _ _ hP
    obtain ⟨rv, hrv, hqv, hpv⟩ := (mem_qualifying_payouts payout_rules row v).mp hv
    refine ⟨?_, ?_, ?_⟩
    · intro hnone
      exact absurd hqv (hnone rv hrv)
    · intro r hr hq
      exact hb r.payout ((mem_qualifying_payouts payout_rules row r.payout).mpr ⟨r, hr, hq, rfl⟩)
    · intro _
      exact ⟨rv, hrv, hqv, hpv.symm⟩

/-- Witness for C1 at the spec's example rule set: the event at
distance 30 / magnitude 5 qualifies for the first rule, so its
computed payout is at least 10, and indeed the second and third
conjuncts of the theorem apply. -/
theorem compute_payout_is_max_over_qualifying_witness :
    (10 : ℚ) ≤ compute_payout [⟨50, 5, 10⟩, ⟨100, 6, 25⟩] ⟨some ⟨2021⟩, 5, 30, 0, 0⟩ :=
  (compute_payout_is_max_over_qualifying [⟨50, 5, 10⟩, ⟨100, 6, 25⟩]
      ⟨some ⟨2021⟩, 5, 30, 0, 0⟩).2.1
    ⟨50, 5, 10⟩ (by simp) (by constructor <;> norm_num)

/-- C2: the mapping returned by `compute_payouts` assigns to each year
the MAXIMUM per-event payout among that year's retained events (a year
key is present exactly when some retained event has that year, and its
value is attained by one such event and bounds all of them) — not
their sum. -/
theorem compute_payouts_year_is_max (earthquake_data : List Event)
    (payout_rules : List Rule) (year : ℤ) :
    (compute_payouts earthquake_data payout_rules year = none ↔
      ∀ e ∈ earthquake_data, ¬ event_year e = some year)
  ∧ ∀ v, compute_payouts earthquake_data payout_rules year = some v →
      (∃ e ∈ earthquake_data, event_year e = some year ∧ compute_payout payout_rules e = v)
      ∧ ∀ e ∈ earthquake_data, event_year e = some year →
          compute_payout payout_rules e ≤ v := by
  constructor
  · rw [compute_payouts, listMax?_eq_none_iff, List.map_eq_nil_iff,
      List.eq_nil_iff_forall_not_mem]
    constructor
    · intro h e he hy
      exact h e ((mem_year_filter earthquake_data year e).mpr ⟨he, hy⟩)
    · intro h e he
      obtain ⟨he', hy⟩ := (mem_year_filter earthquake_data year e).mp he
      exact h e he' hy
  · intro v hv
    obtain ⟨hm, hb⟩ := listMax?_isGreatest _ _ hv
    obtain ⟨e, he, hev⟩ := List.mem_map.mp hm
    obtain ⟨he', hy⟩ := (mem_year_filter earthquake_data year e).mp he
    refine ⟨⟨e, he', hy, hev⟩, ?_⟩
    intro e' he' hy'
    exact hb _ (List.mem_map.mpr
      ⟨e', (mem_year_filter earthquake_data year e').mpr ⟨he', hy'⟩, rfl⟩)

/-- Witness for C2 at the spec's example: two events of year 2021 (magnitudes
5 and 7), one paying 10.0 and one paying 25.0 — the yearly value is `max = 25.0`
(attained and an upper bound), and it is not the sum `35.0`. -/
theorem compute_payouts_year_is_max_witness :
    ((∃ e ∈ ([⟨some ⟨2021⟩, 5, 30, 0, 0⟩, ⟨some ⟨2021⟩, 7, 80, 0, 0⟩] : List Event),
        event_year e = some 2021 ∧ compute_payout [⟨50, 5, 10⟩, ⟨100, 6, 25⟩] e = 25)
      ∧ ∀ e ∈ ([⟨some ⟨2021⟩, 5, 30, 0, 0⟩, ⟨some ⟨2021⟩, 7, 80, 0, 0⟩] : List Event),
          event_year e = some 2021 → compute_payout [⟨50, 5, 10⟩, ⟨100, 6, 25⟩] e ≤ 25)
    ∧ compute_payouts [⟨some ⟨2021⟩, 5, 30, 0, 0⟩, ⟨some ⟨2021⟩, 7, 80, 0, 0⟩]
        [⟨50, 5, 10⟩, ⟨100, 6, 25⟩] 2021 = some 25
    ∧ (25 : ℚ) ≠ 10 + 25 :=
  ⟨(compute_payouts_year_is_max
      [⟨some ⟨2021⟩, 5, 30, 0, 0⟩, ⟨some ⟨2021⟩, 7, 80, 0, 0⟩]
      [⟨50, 5, 10⟩, ⟨100, 6, 25⟩] 2021).2 25 (by rfl),
   by rfl, by norm_num⟩

/-- C8: an event whose timestamp is missing or unparseable (coerced to
`NaT`) is silently dropped: inserting such a row anywhere in the input
leaves the result of `compute_payouts` unchanged, and the remaining
rows are still processed; no error is raised (the embedding is total). -/
theorem compute_payouts_skips_bad (pre post : List Event) (bad : Event)
    (payout_rules : List Rule) (h : bad.time = none) :
    compute_payouts (pre ++ bad :: post) payout_rules =
      compute_payouts (pre ++ post) payout_rules := by
  funext year
  simp [compute_payouts, dropna_time, List.filter_append, h]

/-- Witness for C8: inserting a timestamp-less row after a good 2020
row changes nothing. -/
theorem compute_payouts_skips_bad_witness :
    compute_payouts [⟨some ⟨2020⟩, 6, 10, 0, 0⟩, ⟨none, 9, 1, 0, 0⟩] [⟨50, 5, 10⟩] =
      compute_payouts [⟨some ⟨2020⟩, 6, 10, 0, 0⟩] [⟨50, 5, 10⟩] :=
  compute_payouts_skips_bad [⟨some ⟨2020⟩, 6, 10, 0, 0⟩] [] ⟨none, 9, 1, 0, 0⟩
    [⟨50, 5, 10⟩] rfl

/-! ## Burning cost -/

theorem range_map_sum (g : ℕ → ℚ) (n : ℕ) :
    ((List.range n).map g).sum = ∑ i in Finset.range n, g i := by
  induction n with
  | zero => simp
  | succ n ih =>
    rw [List.range_succ, List.map_append, List.sum_append, Finset.sum_range_succ, ih]
    simp

/-- Reindexing the sum over `range(start_year, end_year + 1)` as a sum
over the inclusive integer interval. -/
theorem sum_range_toNat_eq_icc (s e : ℤ) (h : s ≤ e) (f : ℤ → ℚ) :
    ∑ i in Finset.range (e - s + 1).toNat, f (s + (i : ℤ)) =
      ∑ y in Finset.Icc s e, f y := by
  have hmap : (Finset.range (e - s + 1).toNat).map
      ⟨fun i : ℕ => s + (i : ℤ), fun a b hab => by exact_mod_cast add_left_cancel hab⟩ =
        Finset.Icc s e := by
    ext y
    simp only [Finset.mem_map, Finset.mem_range, Finset.mem_Icc,
      Function.Embedding.coeFn_mk]
    constructor
    · rintro ⟨i, hi, rfl⟩
      omega
    · intro hy
      exact ⟨(y - s).toNat, by omega, by omega⟩
  rw [← hmap, Finset.sum_map]
  simp only [Function.Embedding.coeFn_mk]

/-- On a valid range the guard does not fire and `compute_burning_cost`
returns the summed payouts over the year range divided by
`total_years`. -/
theorem compute_burning_cost_eq_ok (p : ℤ → Option ℚ) (s e : ℤ) (h : s ≤ e) :
    compute_burning_cost p s e =
      .ok ((((List.range (e - s + 1).toNat).map fun i : ℕ => s + (i : ℤ)).map
        fun year => (p year).getD 0).sum / ((e - s + 1 : ℤ) : ℚ)) := by
  simp only [compute_burning_cost]
  rw [if_neg (by omega : ¬ s > e), if_neg (by omega : ¬ (e - s + 1 : ℤ) = 0)]

/-- C3: for `startYear ≤ endYear`, `compute_burning_cost` returns the
sum over all years of the inclusive range `[startYear, endYear]` of the
mapping's value (defaulting to `0.0` for absent years), divided by
`totalYears = endYear - startYear + 1`. -/
theorem compute_burning_cost_is_mean (p : ℤ → Option ℚ) (s e : ℤ) (h : s ≤ e) :
    compute_burning_cost p s e =
      .ok ((∑ y in Finset.Icc s e, (p y).getD 0) / ((e - s + 1 : ℤ) : ℚ)) := by
  rw [compute_burning_cost_eq_ok p s e h, List.map_map]
  have hsum : ((List.range (e - s + 1).toNat).map
      ((fun year => (p year).getD 0) ∘ fun i : ℕ => s + (i : ℤ))).sum =
        ∑ y in Finset.Icc s e, (p y).getD 0 := by
    rw [range_map_sum]
    simp only [Function.comp]
    exact sum_range_toNat_eq_icc s e h (fun y => (p y).getD 0)
  rw [hsum]

/-- Witness for C3 at the spec's examples: the mapping
`{2020: 10.0, 2022: 30.0}` over `[2020, 2022]` averages to
`(10 + 0 + 30) / 3`, and the empty mapping over `[2000, 2000]` gives
`0.0`. -/
theorem compute_burning_cost_is_mean_witness :
    (compute_burning_cost
        (fun y => if y = 2020 then some 10 else if y = 2022 then some 30 else none)
        2020 2022 =
      .ok ((∑ y in Finset.Icc (2020 : ℤ) 2022,
        ((fun y => if y = 2020 then some (10 : ℚ) else if y = 2022 then some 30 else none)
          y).getD 0) / ((2022 - 2020 + 1 : ℤ) : ℚ)))
    ∧ compute_burning_cost (fun _ => none) 2000 2000 = .ok 0 := by
  constructor
  · exact compute_burning_cost_is_mean
      (fun y => if y = 2020 then some 10 else if y = 2022 then some 30 else none)
      2020 2022 (by omega)
  · rw [compute_burning_cost_is_mean (fun _ => none) 2000 2000 le_rfl]
    norm_num

/-- C6: `compute_burning_cost` raises (its `ValueError`) if and only if
`startYear > endYear`; in the `Except` embedding the raise produces no
partial result, and for `startYear ≤ endYear` it returns normally. -/
theorem compute_burning_cost_raises_iff (p : ℤ → Option ℚ) (s e : ℤ) :
    ((∃ msg, compute_burning_cost p s e = .error msg) ↔ e < s)
  ∧ ((∃ v, compute_burning_cost p s e = .ok v) ↔ s ≤ e) := by
  rcases le_or_lt s e with h | h
  · rw [compute_burning_cost_eq_ok p s e h]
    constructor
    · simp only [iff_iff_implies_and_implies]
      refine ⟨?_, ?_⟩
      · rintro ⟨msg, hmsg⟩
        exact absurd hmsg (by simp)
      · intro hlt
        omega
    · simp only [iff_iff_implies_and_implies]
      exact ⟨fun _ => h, fun _ => ⟨_, rfl⟩⟩
  · have herr : compute_burning_cost p s e =
        .error "start_year must be less than or equal to end_year" := by
      simp only [compute_burning_cost]
      rw [if_pos (by omega : s > e)]
    rw [herr]
    constructor
    · exact ⟨fun _ => h, fun _ => ⟨_, rfl⟩⟩
    · simp only [iff_iff_implies_and_implies]
      refine ⟨?_, ?_⟩
      · rintro ⟨v, hv⟩
        exact absurd hv (by simp)
      · intro hle
        omega

/-! ## `compute_payouts` with the caller's frame tracked

To settle the frame claim we re-embed `compute_payouts` line by line
over an explicit pair of dataframes: the caller-owned frame bound to
the parameter `earthquake_data` and the engine's working copy
`earthquake_data_copy`.  Each Python statement becomes a function on
this pair, updating exactly the frame it names. -/

/-- A row of the working copy: the original columns plus the derived
`payout` and `year` columns, `none` until the corresponding assignment
statement has run. -/
structure WorkRow where
  base : Event
  payout : Option ℚ
  year : Option ℤ
deriving DecidableEq, Repr

/-- The two dataframes alive during one `compute_payouts` call. -/
structure PayoutsFrames where
  earthquake_data : List Event
  earthquake_data_copy : List WorkRow
deriving DecidableEq, Repr

/-- `earthquake_data_copy = earthquake_data.copy()`: a deep copy of the
caller's rows; the derived columns do not exist yet. -/
def copy_step (earthquake_data : List Event) : PayoutsFrames :=
  ⟨earthquake_data, earthquake_data.map fun e => ⟨e, none, none⟩⟩

/-- `earthquake_data_copy["time"] = pd.to_datetime(..., errors="coerce")`:
re-parses the `time` column of the working copy only.  In the embedding
a `time` is already `none` exactly when it is missing or unparseable,
so per-row conversion is the identity on the stored option. -/
def to_datetime_step (s : PayoutsFrames) : PayoutsFrames :=
  { s with earthquake_data_copy :=
      s.earthquake_data_copy.map fun r => { r with base := { r.base with time := r.base.time } } }

/-- `earthquake_data_copy = earthquake_data_copy.dropna(subset=["time"])`. -/
def dropna_step (s : PayoutsFrames) : PayoutsFrames :=
  { s with earthquake_data_copy :=
      s.earthquake_data_copy.filter fun r => r.base.time.isSome }

/-- `earthquake_data_copy["payout"] = earthquake_data_copy.apply(compute_payout, axis=1)`. -/
def assign_payout_step (payout_rules : List Rule) (s : PayoutsFrames) : PayoutsFrames :=
  { s with earthquake_data_copy :=
      s.earthquake_data_copy.map fun r =>
        { r with payout := some (compute_payout payout_rules r.base) } }

/-- `earthquake_data_copy["year"] = earthquake_data_copy["time"].dt.year`. -/
def assign_year_step (s : PayoutsFrames) : PayoutsFrames :=
  { s with earthquake_data_copy :=
      s.earthquake_data_copy.map fun r => { r with year := r.base.time.map Timestamp.year } }

/-- `earthquake_data_copy.groupby("year")["payout"].max().to_dict()`. -/
def groupby_year_max (s : PayoutsFrames) : ℤ → Option ℚ :=
  fun year =>
    listMax? ((s.earthquake_data_copy.filter fun r => decide (r.year = some year)).map
      fun r => r.payout.getD 0)

/-- The whole `compute_payouts` call with the caller's frame tracked:
the returned pair is (the dict the call returns, the caller's
`earthquake_data` as it stands when the call returns). -/
def compute_payouts_traced (earthquake_data : List Event) (payout_rules : List Rule) :
    (ℤ → Option ℚ) × List Event :=
  let s := assign_year_step (assign_payout_step payout_rules
    (dropna_step (to_datetime_step (copy_step earthquake_data))))
  (groupby_year_max s, s.earthquake_data)

/-- After all the statements, the working copy holds exactly the
retained input rows with both derived columns filled in. -/
theorem traced_copy_rows (earthquake_data : List Event) (payout_rules : List Rule) :
    (assign_year_step (assign_payout_step payout_rules
        (dropna_step (to_datetime_step (copy_step earthquake_data))))).earthquake_data_copy =
      (dropna_time earthquake_data).map fun e =>
        ⟨e, some (compute_payout payout_rules e), event_year e⟩ := by
  induction earthquake_data with
  | nil => rfl
  | cons e data ih =>
    by_cases h : e.time.isSome <;>
      simp_all [assign_year_step, assign_payout_step, dropna_step, to_datetime_step,
        copy_step, dropna_time, event_year]

/-- Grouping the enriched rows by the derived `year` column agrees with
grouping the plain retained events by their timestamp's year. -/
theorem groupby_of_enriched (l : List Event) (payout_rules : List Rule) (year : ℤ) :
    ((l.map fun e =>
        (⟨e, some (compute_payout payout_rules e), event_year e⟩ : WorkRow)).filter
      fun r => decide (r.year = some year)).map (fun r => r.payout.getD 0) =
    (l.filter fun e => decide (event_year e = some year)).map
      (compute_payout payout_rules) := by
  induction l with
  | nil => rfl
  | cons e l ih =>
    by_cases h : event_year e = some year <;> simp [h, ih]

/-- C9: `compute_payouts` leaves the caller-supplied event collection
unchanged — after the call every field of every input event is what it
was before, the derived `payout` and `year` columns living only on the
engine's working copy — and the traced call returns the same dict as
the functional embedding. -/
theorem compute_payouts_traced_preserves_input (earthquake_data : List Event)
    (payout_rules : List Rule) :
    (compute_payouts_traced earthquake_data payout_rules).2 = earthquake_data
  ∧ (compute_payouts_traced earthquake_data payout_rules).1 =
      compute_payouts earthquake_data payout_rules := by
  constructor
  · rfl
  · funext year
    show groupby_year_max _ year = _
    rw [groupby_year_max, traced_copy_rows, groupby_of_enriched]
    rfl

/-! ## Monotonicity in the rule set -/

/-- C10 counterexample: enlarging the rule set can lower a year's
payout.  With one event (year 2020, magnitude 5, distance 10) the
empty rule set yields payout `0.0` for 2020, but the superset holding
the single qualifying rule `{radius: 100, magnitude: 0, payout: -5}`
yields `-5.0 < 0.0`. -/
theorem compute_payouts_not_monotone_in_rules :
    ([] : List Rule) ⊆ [⟨100, 0, -5⟩]
  ∧ compute_payouts [⟨some ⟨2020⟩, 5, 10, 0, 0⟩] [] 2020 = some 0
  ∧ compute_payouts [⟨some ⟨2020⟩, 5, 10, 0, 0⟩] [⟨100, 0, -5⟩] 2020 = some (-5)
  ∧ ¬ ((0 : ℚ) ≤ -5) :=
  ⟨List.nil_subset _, rfl, rfl, by norm_num⟩

/-- Under nonnegative payouts, a larger rule set can only raise the
row-wise payout. -/
theorem compute_payout_mono_rules (R1 R2 : List Rule) (hsub : R1 ⊆ R2)
    (hpos : ∀ r ∈ R2, 0 ≤ r.payout) (row : Event) :
    compute_payout R1 row ≤ compute_payout R2 row := by
  rw [compute_payout_eq, compute_payout_eq]
  cases h1 : listMax? ((R1.filter fun rule =>
      decide (row.depth ≤ rule.radius) && decide (rule.magnitude ≤ row.mag)).map
        Rule.payout) with
  | none =>
    cases h2 : listMax? ((R2.filter fun rule =>
        decide (row.depth ≤ rule.radius) && decide (rule.magnitude ≤ row.mag)).map
          Rule.payout) with
    | none => exact le_refl 0
    | some w =>
      obtain ⟨hw, _⟩ := listMax?_isGreatest _ _ h2
      obtain ⟨r, hr, _, hpw⟩ := (mem_qualifying_payouts R2 row w).mp hw
      exact hpw ▸ hpos r hr
  | some v =>
    obtain ⟨hv, _⟩ := listMax?_isGreatest _ _ h1
    obtain ⟨r, hr, hq, hpv⟩ := (mem_qualifying_payouts R1 row v).mp hv
    have hmem2 : r.payout ∈ (R2.filter fun rule =>
        decide (row.depth ≤ rule.radius) && decide (rule.magnitude ≤ row.mag)).map
          Rule.payout :=
      (mem_qualifying_payouts R2 row r.payout).mpr ⟨r, hsub hr, hq, rfl⟩
    cases h2 : listMax? ((R2.filter fun rule =>
        decide (row.depth ≤ rule.radius) && decide (rule.magnitude ≤ row.mag)).map
          Rule.payout) with
    | none =>
      rw [listMax?_eq_none_iff] at h2
      rw [h2] at hmem2
      simp at hmem2
    | some w =>
      obtain ⟨_, hb2⟩ := listMax?_isGreatest _ _ h2
      exact hpv ▸ hb2 r.payout hmem2

/-- C10 (amended): for rule sets whose payouts are all nonnegative —
as the spec's "percentage value, 0..100 typically" intends — the claim
holds: `R1 ⊆ R2` gives the same year keys and, for every year, a value
under `R2` at least the value under `R1`.  Without the nonnegativity
hypothesis the claim fails, as the counterexample shows. -/
theorem compute_payouts_monotone_in_rules (data : List Event) (R1 R2 : List Rule)
    (hsub : R1 ⊆ R2) (hpos : ∀ r ∈ R2, 0 ≤ r.payout) (year : ℤ) :
    ((compute_payouts data R1 year).isSome ↔ (compute_payouts data R2 year).isSome)
  ∧ ∀ v1 v2, compute_payouts data R1 year = some v1 →
      compute_payouts data R2 year = some v2 → v1 ≤ v2 := by
  constructor
  · have hkeys : ∀ R : List Rule, (compute_payouts data R year).isSome ↔
        ((dropna_time data).filter fun e => decide (event_year e = some year)) ≠ [] := by
      intro R
      rw [compute_payouts, ← Option.ne_none_iff_isSome, Ne, listMax?_eq_none_iff,
        List.map_eq_nil_iff]
    rw [hkeys R1, hkeys R2]
  · intro v1 v2 h1 h2
    exact listMax?_map_mono _ _ _
      (fun e _ => compute_payout_mono_rules R1 R2 hsub hpos e) v1 v2 h1 h2

/-- Witness for C10 (amended) at a concrete instance: one 2020 event,
`R1 = []` contained in `R2 = [{radius: 100, magnitude: 0, payout: 5}]`,
all payouts nonnegative. -/
theorem compute_payouts_monotone_in_rules_witness :
    ((compute_payouts [⟨some ⟨2020⟩, 5, 10, 0, 0⟩] [] 2020).isSome ↔
      (compute_payouts [⟨some ⟨2020⟩, 5, 10, 0, 0⟩] [⟨100, 0, 5⟩] 2020).isSome)
  ∧ ∀ v1 v2, compute_payouts [⟨some ⟨2020⟩, 5, 10, 0, 0⟩] [] 2020 = some v1 →
      compute_payouts [⟨some ⟨2020⟩, 5, 10, 0, 0⟩] [⟨100, 0, 5⟩] 2020 = some v2 →
      v1 ≤ v2 :=
  compute_payouts_monotone_in_rules [⟨some ⟨2020⟩, 5, 10, 0, 0⟩] [] [⟨100, 0, 5⟩]
    (List.nil_subset _) (by intro r hr; simp_all) 2020

/-! ## Geo-Distance: `get_haversine_distance`

The trigonometric computation of `get_haversine_distance` is embedded
pointwise over the reals; the vectorised numpy arithmetic on two
equal-length arrays is the `zipWith` of the pointwise function. -/

/-- `np.radians`: degrees to radians. -/
noncomputable def radians (deg : ℝ) : ℝ := deg * (Real.pi / 180)

/-- `np.arctan2 y x`: the angle of the point `(x, y)`, i.e. `arctan
(y / x)` corrected by quadrant, with `arctan2 0 0 = 0`. -/
noncomputable def arctan2 (y x : ℝ) : ℝ :=
  if 0 < x then Real.arctan (y / x)
  else if x < 0 then
    if 0 ≤ y then Real.arctan (y / x) + Real.pi else Real.arctan (y / x) - Real.pi
  else
    if 0 < y then Real.pi / 2
    else if y < 0 then -(Real.pi / 2)
    else 0

/-- The intermediate quantity `a` of `get_haversine_distance` for one
coordinate pair: `lat1`/`lon1` are the dataset point, `lat2`/`lon2`
the reference point, `dlat = lat2 - lat1`, `dlon = lon2 - lon1`. -/
noncomputable def haversine_a (lat lon lat_point lon_point : ℝ) : ℝ :=
  let lat1 := radians lat
  let lon1 := radians lon
  let lat2 := radians lat_point
  let lon2 := radians lon_point
  let dlat := lat2 - lat1
  let dlon := lon2 - lon1
  Real.sin (dlat / 2) ^ 2 + Real.cos lat1 * Real.cos lat2 * Real.sin (dlon / 2) ^ 2

/-- One output distance of `get_haversine_distance`:
`EARTH_RADIUS * c` with `c = 2 * arctan2(sqrt a, sqrt (1 - a))`.  The
code takes the square roots of `a` and `1 - a` directly, without
clamping `a`. -/
noncomputable def haversine_point (lat lon lat_point lon_point : ℝ) : ℝ :=
  let a := haversine_a lat lon lat_point lon_point
  let c := 2 * arctan2 (Real.sqrt a) (Real.sqrt (1 - a))
  EARTH_RADIUS * c

/-- `get_haversine_distance` on already-numeric inputs: one distance
per coordinate pair, in order. -/
noncomputable def get_haversine_distance (lat_series lon_series : List ℝ)
    (lat_point lon_point : ℝ) : List ℝ :=
  List.zipWith (fun lat lon => haversine_point lat lon lat_point lon_point)
    lat_series lon_series

/-- The spec's formula, stated from its words: all angles in radians,
`a = sin²(Δlat/2) + cos lat1 · cos lat2 · sin²(Δlon/2)`,
`c = 2·atan2(√a, √(1−a))`, `distance = R·c` with `R = 6378` km —
with the deltas oriented source-minus-reference, opposite to the
code's `lat2 - lat1`. -/
noncomputable def haversine_spec_formula (lat lon lat_point lon_point : ℝ) : ℝ :=
  let lat1 := radians lat
  let lat2 := radians lat_point
  let dlat := lat1 - lat2
  let dlon := radians lon - radians lon_point
  let a := Real.sin (dlat / 2) ^ 2 + Real.cos lat1 * Real.cos lat2 * Real.sin (dlon / 2) ^ 2
  let c := 2 * arctan2 (Real.sqrt a) (Real.sqrt (1 - a))
  6378 * c

/-- Half-angle identity used for the haversine bounds. -/
theorem sin_sq_half_eq (x : ℝ) : Real.sin (x / 2) ^ 2 = (1 - Real.cos x) / 2 := by
  have h2 : 2 * (x / 2) = x := by ring
  rw [Real.sin_sq, Real.cos_sq, h2]
  ring

/-- In exact arithmetic the haversine quantity
`sin²((p2−p1)/2) + cos p1 · cos p2 · sin²(d/2)` lies in `[0, 1]` for
all real angles. -/
theorem haversine_sum_unit (p1 p2 d : ℝ) :
    0 ≤ Real.sin ((p2 - p1) / 2) ^ 2 + Real.cos p1 * Real.cos p2 * Real.sin (d / 2) ^ 2 ∧
    Real.sin ((p2 - p1) / 2) ^ 2 + Real.cos p1 * Real.cos p2 * Real.sin (d / 2) ^ 2 ≤ 1 := by
  have hA := sin_sq_half_eq (p2 - p1)
  have hsub := Real.cos_sub p2 p1
  have hadd := Real.cos_add p1 p2
  have hA0 : (0 : ℝ) ≤ Real.sin ((p2 - p1) / 2) ^ 2 := sq_nonneg _
  have hA1 : Real.sin ((p2 - p1) / 2) ^ 2 ≤ 1 := Real.sin_sq_le_one _
  have hT0 : (0 : ℝ) ≤ Real.sin (d / 2) ^ 2 := sq_nonneg _
  have hT1 : Real.sin (d / 2) ^ 2 ≤ 1 := Real.sin_sq_le_one _
  have hc1 : -1 ≤ Real.cos (p1 + p2) := Real.neg_one_le_cos _
  have hc2 : Real.cos (p1 + p2) ≤ 1 := Real.cos_le_one _
  have hsum : Real.sin ((p2 - p1) / 2) ^ 2 + Real.cos p1 * Real.cos p2 =
      (1 + Real.cos (p1 + p2)) / 2 := by
    rw [hA, hsub, hadd]
    ring
  constructor
  · nlinarith [mul_nonneg hA0 (by linarith : (0:ℝ) ≤ 1 - Real.sin (d / 2) ^ 2),
      mul_nonneg (by linarith :
        (0:ℝ) ≤ Real.sin ((p2 - p1) / 2) ^ 2 + Real.cos p1 * Real.cos p2) hT0]
  · nlinarith [mul_nonneg (by linarith : (0:ℝ) ≤ 1 - Real.sin ((p2 - p1) / 2) ^ 2)
      (by linarith : (0:ℝ) ≤ 1 - Real.sin (d / 2) ^ 2),
      mul_nonneg (by linarith :
        (0:ℝ) ≤ 1 - (Real.sin ((p2 - p1) / 2) ^ 2 + Real.cos p1 * Real.cos p2)) hT0]

/-- The code's `a` always lies in `[0, 1]`: nothing negative ever goes
under either square root. -/
theorem haversine_a_unit (lat lon lat_point lon_point : ℝ) :
    0 ≤ haversine_a lat lon lat_point lon_point ∧
    haversine_a lat lon lat_point lon_point ≤ 1 := by
  simpa [haversine_a] using
    haversine_sum_unit (radians lat) (radians lat_point)
      (radians lon_point - radians lon)

/-- For a dataset point identical to the reference point, `a = 0`
exactly. -/
theorem haversine_a_self (lat lon : ℝ) : haversine_a lat lon lat lon = 0 := by
  simp [haversine_a]

/-- The code's distance agrees pointwise with the spec's formula: the
only difference is the orientation of `Δlat` and `Δlon`, which `sin²`
cancels. -/
theorem haversine_point_eq_spec (lat lon lat_point lon_point : ℝ) :
    haversine_point lat lon lat_point lon_point =
      haversine_spec_formula lat lon lat_point lon_point := by
  have ha : haversine_a lat lon lat_point lon_point =
      Real.sin ((radians lat - radians lat_point) / 2) ^ 2 +
        Real.cos (radians lat) * Real.cos (radians lat_point) *
          Real.sin ((radians lon - radians lon_point) / 2) ^ 2 := by
    simp only [haversine_a]
    rw [show radians lat_point - radians lat = -(radians lat - radians lat_point) by ring,
      show radians lon_point - radians lon = -(radians lon - radians lon_point) by ring,
      neg_div, Real.sin_neg, neg_sq, neg_div, Real.sin_neg, neg_sq]
  simp only [haversine_point, haversine_spec_formula, EARTH_RADIUS, ha]

/-- C4: on equal-length latitude and longitude sequences, the code
returns one distance per input pair, in order, and the i-th output is
exactly the spec's `R·c` haversine formula with `R = 6378` km applied
to the i-th coordinate pair. -/
theorem get_haversine_distance_formula (lat_series lon_series : List ℝ)
    (lat_point lon_point : ℝ) (h : lat_series.length = lon_series.length) :
    (get_haversine_distance lat_series lon_series lat_point lon_point).length =
      lat_series.length
  ∧ ∀ (i : ℕ) (h1 : i < lat_series.length) (h2 : i < lon_series.length)
      (h3 : i < (get_haversine_distance lat_series lon_series lat_point lon_point).length),
      (get_haversine_distance lat_series lon_series lat_point lon_point).get ⟨i, h3⟩ =
        haversine_spec_formula (lat_series.get ⟨i, h1⟩) (lon_series.get ⟨i, h2⟩)
          lat_point lon_point := by
  constructor
  · simp [get_haversine_distance, h]
  · intro i h1 h2 h3
    simp only [get_haversine_distance, List.get_eq_getElem, List.getElem_zipWith]
    exact haversine_point_eq_spec _ _ _ _

/-- Witness for C4 at the singleton inputs `[0], [0]` against the
reference point `(0, 0)`. -/
theorem get_haversine_distance_formula_witness :
    ([(0 : ℝ)]).length = ([(0 : ℝ)]).length
  ∧ ((get_haversine_distance [0] [0] 0 0).length = ([(0 : ℝ)]).length
    ∧ ∀ (i : ℕ) (h1 : i < ([(0 : ℝ)]).length) (h2 : i < ([(0 : ℝ)]).length)
        (h3 : i < (get_haversine_distance [0] [0] 0 0).length),
        (get_haversine_distance [0] [0] 0 0).get ⟨i, h3⟩ =
          haversine_spec_formula (([(0 : ℝ)]).get ⟨i, h1⟩) (([(0 : ℝ)]).get ⟨i, h2⟩) 0 0) :=
  ⟨rfl, get_haversine_distance_formula [0] [0] 0 0 rfl⟩

/-- C5: a coordinate pair identical to the reference point yields
distance `0` exactly, and nothing negative can appear under either
square root: in exact arithmetic the intermediate `a` always lies in
`[0, 1]`, so clamping `a` to `[0, 1]` before the roots is the identity
— the unclamped code and the spec's clamped formula coincide. -/
theorem haversine_degenerate_zero (lat lon lat2 lon2 : ℝ) :
    haversine_point lat lon lat lon = 0
  ∧ 0 ≤ haversine_a lat lon lat2 lon2
  ∧ haversine_a lat lon lat2 lon2 ≤ 1
  ∧ min 1 (max 0 (haversine_a lat lon lat2 lon2)) = haversine_a lat lon lat2 lon2 := by
  obtain ⟨h0, h1⟩ := haversine_a_unit lat lon lat2 lon2
  refine ⟨?_, h0, h1, ?_⟩
  · simp only [haversine_point, haversine_a_self]
    norm_num [arctan2, Real.arctan_zero]
  · rw [max_eq_right h0, min_eq_right h1]

/-! ## Non-numeric inputs to `get_haversine_distance`

`np.asarray(..., dtype=np.float64)` on lines 41-42 casts every entry
to a float and raises `ValueError` on a non-numeric string; the
repository's own test `test_haversine_invalid_input` pins this.  An
input entry is embedded as already numeric, a numeric string, or a
non-numeric string on which the cast fails. -/

/-- One raw entry of `lat_series` / `lon_series`. -/
inductive PyScalar where
  | num (x : ℝ)
  | numStr (x : ℝ)
  | badStr (s : String)

/-- The float64 cast of a single entry: `none` exactly on a
non-numeric string. -/
def float64_cast? : PyScalar → Option ℝ
  | .num x => some x
  | .numStr x => some x
  | .badStr _ => none

/-- `np.asarray(series, dtype=np.float64)`: elementwise cast, failing
as a whole when any entry fails. -/
def asarray_float64 : List PyScalar → Option (List ℝ)
  | [] => some []
  | c :: rest =>
    match float64_cast? c, asarray_float64 rest with
    | some x, some xs => some (x :: xs)
    | _, _ => none

/-- `get_haversine_distance` including its first two lines, the array
casts: a failing cast raises `ValueError` (the `Except.error` branch)
before any distance is produced. -/
noncomputable def get_haversine_distance_checked (lat_series lon_series : List PyScalar)
    (lat_point lon_point : ℝ) : Except String (List ℝ) :=
  match asarray_float64 lat_series, asarray_float64 lon_series with
  | some lat_arr, some lon_arr =>
    .ok (get_haversine_distance lat_arr lon_arr lat_point lon_point)
  | _, _ => .error "could not convert string to float"

theorem asarray_eq_none_of_bad (l : List PyScalar) (c : PyScalar) (hc : c ∈ l)
    (hbad : float64_cast? c = none) : asarray_float64 l = none := by
  induction l with
  | nil => simp at hc
  | cons a l ih =>
    rcases List.mem_cons.mp hc with rfl | hmem
    · simp [asarray_float64, hbad]
    · cases h : float64_cast? a <;> simp [asarray_float64, h, ih hmem]

/-- C7: any input whose latitudes or longitudes contain an entry not
castable to a float (a non-numeric string) makes
`get_haversine_distance` raise a `ValueError` instead of silently
coercing. -/
theorem get_haversine_distance_checked_raises (lat_series lon_series : List PyScalar)
    (lat_point lon_point : ℝ)
    (h : ∃ c ∈ lat_series ++ lon_series, float64_cast? c = none) :
    ∃ msg, get_haversine_distance_checked lat_series lon_series lat_point lon_point =
      .error msg := by
  obtain ⟨c, hc, hbad⟩ := h
  rcases List.mem_append.mp hc with hm | hm
  · have hnone := asarray_eq_none_of_bad _ _ hm hbad
    refine ⟨"could not convert string to float", ?_⟩
    cases h2 : asarray_float64 lon_series <;>
      simp [get_haversine_distance_checked, hnone, h2]
  · have hnone := asarray_eq_none_of_bad _ _ hm hbad
    refine ⟨"could not convert string to float", ?_⟩
    cases h1 : asarray_float64 lat_series <;>
      simp [get_haversine_distance_checked, hnone, h1]

/-- Witness for C7 at the repository test's input
`(['a', 'b'], ['c', 'd'], 0, 0)`. -/
theorem get_haversine_distance_checked_raises_witness :
    ∃ msg, get_haversine_distance_checked
      [.badStr "a", .badStr "b"] [.badStr "c", .badStr "d"] 0 0 = .error msg :=
  get_haversine_distance_checked_raises [.badStr "a", .badStr "b"]
    [.badStr "c", .badStr "d"] 0 0 ⟨.badStr "a", by simp, rfl⟩

end Tools
